import Mathlib

/-
Verification of the PyBrowserID local-verification core against its design
document.  The development shallowly embeds the two source files of the core,
browserid/jwt.py and browserid/verifiers/local.py, as executable Lean
functions.  Code of the repository that lives outside those files (the
utilities module, the audience matcher of the verifier base class, the
support-document resolver and the concrete crypto layer) is either modelled
from the design document or abstracted as an explicit environment of
collaborator functions, so that every theorem quantifies over the behaviour
of those collaborators.
-/

namespace PyBrowserID

/-- JSON values as they occur in token payloads and key data: strings, integer
numbers and objects (ordered field lists).  Other JSON shapes play no role in
the verification pipeline. -/
inductive JVal where
  | str : String → JVal
  | num : Int → JVal
  | obj : List (String × JVal) → JVal


/-- Python exceptions observable from the embedded code.  `keyError`,
`indexError` and `typeError` model the builtin lookup/indexing failures;
`valueError` carries its message; the remaining constructors model the typed
failures of browserid.errors, with the exact exception argument recorded
(ExpiredSignatureError is raised once with the raw `exp` payload value and
once with the string "expired certificate in chain", InvalidSignatureError
with one of three messages, modelled as three constructors). -/
inductive PyErr where
  | keyError
  | indexError
  | typeError
  | valueError (msg : String)
  | expiredSignature (arg : JVal)
  | invalidSignatureUntrustedRoot (rootIssuer : JVal)
  | invalidSignatureBadChain
  | invalidSignatureOnAssertion
  | unsupportedCertChain (msg : String)
  | audienceMismatch (audience : String)


/-- Association lookup in a JSON object's field list (first binding wins, as
in a Python dict built from JSON). -/
def assocFind (key : String) : List (String × JVal) → Option JVal
  | [] => none
  | (k, v) :: rest => if k = key then some v else assocFind key rest

/-- Python subscripting `d[k]`: KeyError when the key is absent, TypeError
when the value is not an object/dict. -/
def JVal.item : JVal → String → Except PyErr JVal
  | .obj fields, k =>
    match assocFind k fields with
    | some v => .ok v
    | none => .error .keyError
  | _, _ => .error .typeError

/-- Coercion of a JSON value to a string where the Python code calls a str
method on it (a non-string raises AttributeError/TypeError there, modelled
uniformly as `typeError`). -/
def asStr : JVal → Except PyErr String
  | .str s => .ok s
  | _ => .error .typeError

/-- Timestamps compared by the Python code are integers (milliseconds since
epoch); a payload expiry that is not a number makes the `exp < now`
comparison raise TypeError. -/
def jvalTimestamp : JVal → Except PyErr Int
  | .num n => .ok n
  | _ => .error .typeError

/-- In-memory token (jwt.py, class JWT): the algorithm string taken from the
header, the decoded payload, the raw signature bytes, and the exact signed
byte span header+"."+payload kept verbatim. -/
structure JWT where
  algorithm : String
  payload : JVal
  signature : List Nat
  signed_data : String


/-- Modelled from the spec: `unbundle_certs_and_assertion` (browserid.utils,
not under src/) splits a bundled assertion into an ordered sequence of raw
certificate token strings plus the raw assertion token string; the bundle is
modelled as that pair directly. -/
structure Bundle where
  certs : List String
  assertion : String

/-- The verification result dict built by LocalVerifier.verify on full
success (local.py lines 100-106). -/
structure VerifyResult where
  status : String
  audience : JVal
  email : String
  issuer : JVal
  expires : Int


/-- The key classes reachable through the module globals of jwt.py: the five
concrete variants defined in jwt.py (lines 81-106) plus the two base classes
`RSKey` and `DSKey` imported at jwt.py line 12.  (The class `Key` is also in
scope but only the empty algorithm string would name it, and the empty string
is rejected by the isalnum guard.) -/
inductive KeyClass where
  | RS | DS | RS64 | RS128 | RS256 | DS128 | DS256


/-- The abstract behaviour of `Key.verify` of the crypto layer (not under
src/): given the selected key class, the key data, the signed bytes and the
signature bytes, it returns a boolean and never raises. -/
abbrev KeyVerify := KeyClass → JVal → String → List Nat → Bool

/-- The external collaborators of the core, passed explicitly:
`decode_json_bytes` and `decode_bytes` from browserid.utils (not under src/),
the support-document resolver's `get_key` and `is_trusted_issuer` lookups
(with the verifier's trusted_secondaries folded into the latter), the crypto
layer's `Key.verify`, and the ambient wall clock used when `now` is
omitted. -/
structure Env where
  decode_json_bytes : String → Except PyErr JVal
  decode_bytes : String → Except PyErr (List Nat)
  getKey : JVal → Except PyErr JVal
  isTrustedIssuer : String → JVal → Bool
  keyVerify : KeyVerify
  currentTime : Int

/-- Modelled from the spec: `normalize_timestamp` (browserid.utils, not under
src/): "Normalize now (defaults to current time if omitted)" — an omitted
timestamp becomes the ambient current time, a given timestamp is returned
unchanged. -/
def normalize_timestamp (currentTime : Int) : Option Int → Int
  | some t => t
  | none => currentTime

/-- Python str.split(sep) for a one-character separator, on character
lists. -/
def splitOnChar (c : Char) : List Char → List (List Char)
  | [] => [[]]
  | x :: xs =>
    if x = c then [] :: splitOnChar c xs
    else
      match splitOnChar c xs with
      | [] => [[x]]
      | g :: gs => (x :: g) :: gs

/-- Python str.split(sep) for a one-character separator. -/
def pySplit (s : String) (c : Char) : List String :=
  (splitOnChar c s.toList).map String.mk

/-- Last element of a list, if any (Python `xs[-1]` succeeds exactly when
this is `some`). -/
def lastElem? {α : Type} : List α → Option α
  | [] => none
  | [x] => some x
  | _ :: y :: ys => lastElem? (y :: ys)

/-- Test on character lists used by `pyStartsWith`. -/
def leadsWith : List Char → List Char → Bool
  | [], _ => true
  | _ :: _, [] => false
  | p :: ps, x :: xs => p = x && leadsWith ps xs

/-- Python str.startswith. -/
def pyStartsWith (s p : String) : Bool := leadsWith p.toList s.toList

/-- Python s[:n] on strings. -/
def pyTake (s : String) (n : Nat) : String := String.mk (s.toList.take n)

/-- Python str.isalnum, restricted to ASCII alphanumerics (every identifier
that the registry of jwt.py can resolve is ASCII, so the restriction does not
change which identifiers load a key). -/
def pyIsAlnum (s : String) : Bool :=
  !s.toList.isEmpty && s.toList.all Char.isAlphanum

/-- Membership of a string in a list of strings (Python `in`). -/
def strMem (x : String) : List String → Bool
  | [] => false
  | y :: ys => x = y || strMem x ys

/-- jwt.parse (jwt.py lines 18-28): split the token into
header.payload.signature (a different segment count raises ValueError from
tuple unpacking), decode the header and extract "alg" — a missing "alg" is
re-raised as ValueError "badly formed JWT" — then decode the payload and the
signature, keeping header+"."+payload as the signed data.  A non-string "alg"
is reported here as `typeError` (Python would store it and raise at its first
use inside check_signature). -/
def jwt_parse (env : Env) (s : String) : Except PyErr JWT :=
  match pySplit s '.' with
  | [header, payload, signature] =>
    match env.decode_json_bytes header with
    | .error e => .error e
    | .ok hj =>
      match hj.item "alg" with
      | .error .keyError => .error (.valueError "badly formed JWT")
      | .error e => .error e
      | .ok (.str algorithm) =>
        match env.decode_json_bytes payload with
        | .error e => .error e
        | .ok pl =>
          match env.decode_bytes signature with
          | .error e => .error e
          | .ok sig => .ok ⟨algorithm, pl, sig, header ++ "." ++ payload⟩
      | .ok _ => .error .typeError
  | _ => .error (.valueError "not enough values to unpack")

/-- The registry lookup `globals()[algorithm + "Key"]` of jwt.py line 74: the
module globals of jwt.py hold exactly the "...Key" names `Key`, `DSKey`,
`RSKey` (imported at line 12) and the five concrete classes of lines 81-106,
so the lookup succeeds exactly for these algorithm strings (the empty string,
which would name `Key`, never reaches the lookup because isalnum rejects
it). -/
def registry_lookup : String → Option KeyClass
  | "RS" => some .RS
  | "DS" => some .DS
  | "RS64" => some .RS64
  | "RS128" => some .RS128
  | "RS256" => some .RS256
  | "DS128" => some .DS128
  | "DS256" => some .DS256
  | _ => none

/-- load_key (jwt.py lines 68-78): reject a non-alphanumeric identifier with
ValueError, then resolve `algorithm + "Key"` among the module globals,
rejecting a miss with the same ValueError; on success the selected key class
is applied to the key data (the construction itself belongs to the crypto
layer, modelled as the pair of class and data). -/
def load_key (algorithm : String) (key_data : JVal) :
    Except PyErr (KeyClass × JVal) :=
  if !pyIsAlnum algorithm then
    .error (.valueError ("unknown signing algorithm: " ++ algorithm))
  else
    match registry_lookup algorithm with
    | some c => .ok (c, key_data)
    | none => .error (.valueError ("unknown signing algorithm: " ++ algorithm))

/-- The key type declared by key data, as read by JWT.check_signature
(jwt.py lines 58-61): the first two characters of the "kty" field in the
current format, or the whole "algorithm" field in the legacy format; a key
data carrying neither raises KeyError, a non-string value raises
TypeError at its use. -/
def declared_key_type (key_data : JVal) : Except PyErr String :=
  match key_data.item "kty" with
  | .ok (.str s) => .ok (pyTake s 2)
  | .ok _ => .error .typeError
  | .error .keyError =>
    match key_data.item "algorithm" with
    | .ok (.str s) => .ok s
    | .ok _ => .error .typeError
    | .error e => .error e
  | .error e => .error e

/-- JWT.check_signature (jwt.py lines 54-65): resolve the key's declared
type, return false outright when the token's own algorithm identifier does
not start with it, otherwise load the key and delegate to Key.verify on the
signed data. -/
def JWT.check_signature (kv : KeyVerify) (t : JWT) (key_data : JVal) :
    Except PyErr Bool :=
  match declared_key_type key_data with
  | .error e => .error e
  | .ok kty =>
    if !pyStartsWith t.algorithm kty then
      .ok false
    else
      match load_key t.algorithm key_data with
      | .error e => .error e
      | .ok (c, kd) => .ok (kv c kd t.signed_data t.signature)

/-- Modelled from the spec: the Audience Matcher, `Verifier.check_audience`
of the verifier base class (browserid/verifiers/__init__.py, not under
src/).  "If expected is omitted, always passes ...  If provided, compares
against the assertion's audience claim; supports a single expected value or
a set of acceptable values" — modelled as a list of acceptable audience
strings.  The audience claim is read from the decoded payload segment of the
raw assertion token, so a missing claim is a KeyError (unified into Malformed
Token by the orchestrator). -/
def check_audience (env : Env) (expected : Option (List String))
    (bundle : Bundle) : Except PyErr Unit :=
  match expected with
  | none => .ok ()
  | some lst =>
    match pySplit bundle.assertion '.' with
    | [_, payload, _] =>
      match env.decode_json_bytes payload with
      | .error e => .error e
      | .ok pl =>
        match pl.item "aud" with
        | .error e => .error e
        | .ok (.str aud) =>
          if strMem aud lst then .ok () else .error (.audienceMismatch aud)
        | .ok _ => .error .typeError
    | _ => .error (.valueError "badly formed JWT")

/-- The list comprehension `[self.parse_jwt(c) for c in certificates]`
(local.py line 76). -/
def parseAll (env : Env) : List String → Except PyErr (List JWT)
  | [] => .ok []
  | s :: rest =>
    match jwt_parse env s with
    | .error e => .error e
    | .ok j =>
      match parseAll env rest with
      | .error e => .error e
      | .ok js => .ok (j :: js)

/-- Subject email extraction (local.py lines 81-84):
`certificates[-1].payload["sub"]`, falling back on
`certificates[-1].payload["principal"]["email"]` when "sub" raises
KeyError; indexing an empty certificate list raises IndexError. -/
def extractEmail (certs : List JWT) : Except PyErr JVal :=
  match lastElem? certs with
  | none => .error .indexError
  | some c =>
    match c.payload.item "sub" with
    | .ok v => .ok v
    | .error .keyError =>
      match c.payload.item "principal" with
      | .error e => .error e
      | .ok p =>
        match p.item "email" with
        | .error e => .error e
        | .ok v => .ok v
    | .error e => .error e

/-- Root issuer extraction `certificates[0].payload["iss"]` (local.py
line 85 and line 142). -/
def headIss : List JWT → Except PyErr JVal
  | [] => .error .indexError
  | c :: _ => c.payload.item "iss"

/-- LocalVerifier._extract_public_key (local.py lines 113-122): the
certificate's embedded public key under "pubkey", with legacy fallback
"public-key" when "pubkey" raises KeyError. -/
def _extract_public_key (cert : JWT) : Except PyErr JVal :=
  match cert.payload.item "pubkey" with
  | .ok v => .ok v
  | .error .keyError => cert.payload.item "public-key"
  | .error e => .error e

/-- LocalVerifier.check_token_signature (local.py lines 124-127). -/
def check_token_signature (env : Env) (data cert : JWT) :
    Except PyErr Bool :=
  match _extract_public_key cert with
  | .error e => .error e
  | .ok pubkey => data.check_signature env.keyVerify pubkey

/-- One iteration of the loop of LocalVerifier.verify_certificate_chain
(local.py lines 145-151): check the certificate's expiry against now, check
its signature against the current key, then return the certificate's
embedded public key as the new current key. -/
def certStep (env : Env) (now : Int) (key : JVal) (c : JWT) :
    Except PyErr JVal :=
  match c.payload.item "exp" with
  | .error e => .error e
  | .ok expv =>
    match jvalTimestamp expv with
    | .error e => .error e
    | .ok e =>
      if normalize_timestamp env.currentTime (some e) < now then
        .error (.expiredSignature (.str "expired certificate in chain"))
      else
        match c.check_signature env.keyVerify key with
        | .error e2 => .error e2
        | .ok false => .error .invalidSignatureBadChain
        | .ok true => _extract_public_key c

/-- The loop of LocalVerifier.verify_certificate_chain (local.py lines
145-152): run the loop body on each certificate in order, threading the
current key; after the last certificate, return it. -/
def chainCerts (env : Env) (now : Int) : JVal → JWT → List JWT →
    Except PyErr JWT
  | key, c, [] =>
    match certStep env now key c with
    | .error e => .error e
    | .ok _ => .ok c
  | key, c, c2 :: cs2 =>
    match certStep env now key c with
    | .error e => .error e
    | .ok key2 => chainCerts env now key2 c2 cs2

/-- LocalVerifier.verify_certificate_chain (local.py lines 129-152): an
empty chain raises ValueError; otherwise the root key is resolved from the
external resolver for the first certificate's "iss" and the chain loop runs
over all certificates in order. -/
def verify_certificate_chain (env : Env) :
    List JWT → Option Int → Except PyErr JWT
  | [], _ => .error (.valueError "chain must have at least one certificate")
  | c :: cs, now? =>
    match c.payload.item "iss" with
    | .error e => .error e
    | .ok root_issuer =>
      match env.getKey root_issuer with
      | .error e => .error e
      | .ok root_key =>
        chainCerts env (normalize_timestamp env.currentTime now?) root_key c cs

/-- The body of the try block of LocalVerifier.verify (local.py lines
59-96), returning the data consumed by the result dict: the parsed
assertion, the subject email, the root issuer and the normalized assertion
expiry.  The steps, in source order: audience check, certificate-count
policy, assertion parse and expiry check, certificate parsing, subject
email and root issuer extraction, trusted-issuer policy, chain
verification, assertion signature check. -/
def verifyPipeline (env : Env) (bundle : Bundle)
    (audience : Option (List String)) (now : Int) :
    Except PyErr (JWT × String × JVal × Int) :=
  match check_audience env audience bundle with
  | .error e => .error e
  | .ok _ =>
    if bundle.certs.length > 1 then
      .error (.unsupportedCertChain "too many certs")
    else
      match jwt_parse env bundle.assertion with
      | .error e => .error e
      | .ok assertion =>
        match assertion.payload.item "exp" with
        | .error e => .error e
        | .ok expv =>
          match jvalTimestamp expv with
          | .error e => .error e
          | .ok expInt =>
            if normalize_timestamp env.currentTime (some expInt) < now then
              .error (.expiredSignature expv)
            else
              match parseAll env bundle.certs with
              | .error e => .error e
              | .ok certs =>
                match extractEmail certs with
                | .error e => .error e
                | .ok emailv =>
                  match headIss certs with
                  | .error e => .error e
                  | .ok root_issuer =>
                    match asStr emailv with
                    | .error e => .error e
                    | .ok email =>
                      if env.isTrustedIssuer
                          ((lastElem? (pySplit email '@')).getD "")
                          root_issuer then
                        match verify_certificate_chain env certs (some now) with
                        | .error e => .error e
                        | .ok cert =>
                          match check_token_signature env assertion cert with
                          | .error e => .error e
                          | .ok true =>
                            .ok (assertion, email, root_issuer,
                                 normalize_timestamp env.currentTime
                                   (some expInt))
                          | .ok false => .error .invalidSignatureOnAssertion
                      else
                        .error (.invalidSignatureUntrustedRoot root_issuer)

/-- LocalVerifier.verify (local.py lines 37-106): normalize now, run the
pipeline with every KeyError escaping the try block converted into
ValueError "Malformed JWT" (lines 97-98), then build the result dict (lines
100-106).  The dict construction happens outside the try block, so the
KeyError a missing "aud" raises there escapes unconverted. -/
def LocalVerifier.verify (env : Env) (bundle : Bundle)
    (audience : Option (List String)) (now? : Option Int) :
    Except PyErr VerifyResult :=
  match verifyPipeline env bundle audience
      (normalize_timestamp env.currentTime now?) with
  | .error .keyError => .error (.valueError "Malformed JWT")
  | .error e => .error e
  | .ok (assertion, email, root_issuer, exp) =>
    match assertion.payload.item "aud" with
    | .error e => .error e
    | .ok aud => .ok ⟨"okay", aud, email, root_issuer, exp⟩

/-! Concrete sample collaborators and inputs, used by witness and
counterexample theorems.  `demoJson` decodes the handful of literal header
and payload segments used in the sample bundles. -/

/-- Sample JSON decoder for the literal segments of the sample bundles. -/
def demoJson : String → Except PyErr JVal := fun s =>
  if s = "HA" then .ok (.obj [("alg", .str "RS64")])
  else if s = "PA" then
    .ok (.obj [("exp", .num 200), ("aud", .str "app.example")])
  else if s = "PB" then .ok (.obj [("exp", .num 200)])
  else if s = "PE" then .ok (.obj [("aud", .str "app.example")])
  else if s = "HC" then .ok (.obj [("alg", .str "RS256")])
  else if s = "PC" then
    .ok (.obj [("iss", .str "idp.example"), ("exp", .num 300),
      ("sub", .str "alice@idp.example"), ("pubkey", .obj [("kty", .str "RSA")])])
  else .error (.valueError "bad json")

/-- Sample resolver key lookup: knows the root key of idp.example. -/
def demoGetKey : JVal → Except PyErr JVal := fun v =>
  match v with
  | .str s =>
    if s = "idp.example" then .ok (.obj [("kty", .str "RSA")])
    else .error (.valueError "no key")
  | _ => .error (.valueError "no key")

/-- Sample environment: every issuer trusted, every signature valid. -/
def demoEnv : Env :=
  ⟨demoJson, fun _ => .ok [], demoGetKey, fun _ _ => true, fun _ _ _ _ => true, 0⟩

/-- Sample environment in which the resolver trusts no issuer. -/
def demoEnvUntrusted : Env :=
  ⟨demoJson, fun _ => .ok [], demoGetKey, fun _ _ => false, fun _ _ _ _ => true, 0⟩

/-- A well-formed one-certificate bundle. -/
def demoBundle : Bundle := ⟨["HC.PC.SC"], "HA.PA.SA"⟩

/-- Same bundle but the assertion payload carries no "aud" claim. -/
def demoBundleNoAud : Bundle := ⟨["HC.PC.SC"], "HA.PB.SA"⟩

/-- Same bundle but the assertion payload carries no "exp" claim. -/
def demoBundleNoExp : Bundle := ⟨["HC.PC.SC"], "HA.PE.SA"⟩

/-- The parsed form of the sample certificate token "HC.PC.SC" under
`demoJson`. -/
def demoCert : JWT :=
  ⟨"RS256",
   .obj [("iss", .str "idp.example"), ("exp", .num 300),
     ("sub", .str "alice@idp.example"), ("pubkey", .obj [("kty", .str "RSA")])],
   [], "HC.PC"⟩

/-- C2: an assertion bundle that unbundles to two or more certificates makes
LocalVerifier.verify fail with UnsupportedCertChainError "too many certs"
(local.py lines 66-69) as soon as the audience check has passed.  The
environment is arbitrary: in particular the conclusion holds for decoders
that fail on every token (no certificate or assertion token is parsed) and
for any signature behaviour (every signature may be individually valid). -/
theorem C2_too_many_certs (env : Env) (bundle : Bundle)
    (audience : Option (List String)) (now? : Option Int)
    (haud : check_audience env audience bundle = .ok ())
    (hlen : bundle.certs.length > 1) :
    LocalVerifier.verify env bundle audience now? =
      .error (.unsupportedCertChain "too many certs") := by
  unfold LocalVerifier.verify verifyPipeline
  rw [haud, if_pos hlen]

/-- Witness for C2: a two-certificate bundle, no audience expectation, and an
environment whose decoders reject every segment. -/
theorem C2_too_many_certs_witness :
    LocalVerifier.verify
      ⟨fun _ => .error (.valueError "bad json"), fun _ => .error (.valueError "bad bytes"),
       fun _ => .error (.valueError "no key"), fun _ _ => false, fun _ _ _ _ => false, 0⟩
      ⟨["c1", "c2"], "a"⟩ none (some 0) =
      .error (.unsupportedCertChain "too many certs") :=
  C2_too_many_certs _ _ none (some 0) rfl (by decide)

/-- C9: when a caller-supplied audience expectation makes the audience check
fail with AudienceMismatchError, LocalVerifier.verify fails with exactly that
error (local.py line 61).  The hypothesis constrains only the decoder fields
of the environment, so the conclusion holds uniformly in `getKey`,
`isTrustedIssuer` and `keyVerify`: the resolver is never consulted and no
signature is verified before the failure. -/
theorem C9_audience_mismatch_first (env : Env) (bundle : Bundle)
    (lst : List String) (now? : Option Int) (aud : String)
    (haud : check_audience env (some lst) bundle =
      .error (.audienceMismatch aud)) :
    LocalVerifier.verify env bundle (some lst) now? =
      .error (.audienceMismatch aud) := by
  unfold LocalVerifier.verify verifyPipeline
  rw [haud]

/-- Witness for C9: the sample assertion claims audience "app.example" while
the caller expects "other.example"; the sample resolver and crypto functions
are present but the mismatch is reported without consulting them. -/
theorem C9_audience_mismatch_first_witness :
    LocalVerifier.verify demoEnv demoBundle (some ["other.example"]) (some 100) =
      .error (.audienceMismatch "app.example") :=
  C9_audience_mismatch_first demoEnv demoBundle ["other.example"] (some 100)
    "app.example" rfl

/-- C8: JWT.check_signature returns false outright — uniformly in the
Key.verify behaviour, so no key is loaded and Key.verify is never consulted —
whenever the token's algorithm identifier does not start with the key's
declared type (the first two characters of the "kty" field in the current
format, or the whole "algorithm" field in the legacy format, per
`declared_key_type`); and only on a prefix match does it load the key and
delegate to Key.verify (jwt.py lines 54-65). -/
theorem C8_algorithm_family_gate (kv : KeyVerify) (t : JWT) (kd : JVal)
    (kty : String) (hk : declared_key_type kd = .ok kty) :
    (pyStartsWith t.algorithm kty = false →
      JWT.check_signature kv t kd = .ok false)
    ∧ (pyStartsWith t.algorithm kty = true →
      JWT.check_signature kv t kd =
        match load_key t.algorithm kd with
        | .error e => .error e
        | .ok (c, k) => .ok (kv c k t.signed_data t.signature)) := by
  constructor
  · intro hpre
    simp [JWT.check_signature, hk, hpre]
  · intro hpre
    simp [JWT.check_signature, hk, hpre]

/-- Witness for C8: a token claiming the DSA-family algorithm "DS128"
checked against RSA key material (kty "RSA", declared type "RS") is rejected
with false even though the supplied Key.verify would accept everything. -/
theorem C8_algorithm_family_gate_witness :
    JWT.check_signature (fun _ _ _ _ => true) ⟨"DS128", .obj [], [], "x"⟩
      (.obj [("kty", .str "RSA")]) = .ok false :=
  (C8_algorithm_family_gate (fun _ _ _ _ => true) ⟨"DS128", .obj [], [], "x"⟩
    (.obj [("kty", .str "RSA")]) "RS" rfl).1 rfl

/-- C10: whenever the token's algorithm identifier is alphanumeric and starts
with the key's declared type but is not resolvable in the module-global
registry of jwt.py, JWT.check_signature raises ValueError "unknown signing
algorithm" from load_key instead of returning a boolean — so the never-throws
guarantee of Key.verify does not extend to the token-level signature
check. -/
theorem C10_prefix_match_unregistered_raises (kv : KeyVerify) (t : JWT)
    (kd : JVal) (kty : String)
    (hk : declared_key_type kd = .ok kty)
    (hpre : pyStartsWith t.algorithm kty = true)
    (haln : pyIsAlnum t.algorithm = true)
    (hreg : registry_lookup t.algorithm = none) :
    JWT.check_signature kv t kd =
      .error (.valueError ("unknown signing algorithm: " ++ t.algorithm)) := by
  simp [JWT.check_signature, load_key, hk, hpre, haln, hreg]

/-- Witness for C10: algorithm "RS999" with RSA key material (declared type
"RS") is alphanumeric and prefix-compatible, yet unregistered, so
check_signature raises ValueError. -/
theorem C10_prefix_match_unregistered_raises_witness :
    JWT.check_signature (fun _ _ _ _ => true) ⟨"RS999", .obj [], [], "x"⟩
      (.obj [("kty", .str "RSA")]) =
      .error (.valueError "unknown signing algorithm: RS999") :=
  C10_prefix_match_unregistered_raises (fun _ _ _ _ => true)
    ⟨"RS999", .obj [], [], "x"⟩ (.obj [("kty", .str "RSA")]) "RS"
    rfl rfl (by decide) rfl

/-- Helper: an algorithm string the registry resolves is one of the seven
names the module globals of jwt.py provide. -/
theorem registry_lookup_mem (algorithm : String) (c : KeyClass)
    (h : registry_lookup algorithm = some c) :
    algorithm ∈
      (["RS", "DS", "RS64", "RS128", "RS256", "DS128", "DS256"] :
        List String) := by
  unfold registry_lookup at h
  split at h <;> simp_all

/-- Counterexample to C4: the algorithm identifier "RS" is alphanumeric, is
not one of the five concrete variants RS64/RS128/RS256/DS128/DS256, and yet
load_key does not raise — it constructs a key object from the base class
RSKey that jwt.py line 12 imports into the module globals. -/
theorem C4_counterexample :
    pyIsAlnum "RS" = true ∧
    "RS" ∉ (["RS64", "RS128", "RS256", "DS128", "DS256"] : List String) ∧
    load_key "RS" (JVal.obj []) = .ok (KeyClass.RS, JVal.obj []) :=
  ⟨by decide, by decide, rfl⟩

/-- C4 as amended: load_key raises ValueError "unknown signing algorithm"
exactly when the identifier is not alphanumeric or resolves to nothing in the
module-global registry, and that registry consists of the five concrete
variants plus the two imported base families "RS" and "DS"; every registered
alphanumeric identifier constructs a key object and raises nothing. -/
theorem C4_load_key_registry (algorithm : String) (key_data : JVal) :
    (load_key algorithm key_data =
        .error (.valueError ("unknown signing algorithm: " ++ algorithm)) ↔
      pyIsAlnum algorithm = false ∨ registry_lookup algorithm = none)
    ∧ (∀ c, registry_lookup algorithm = some c →
        load_key algorithm key_data = .ok (c, key_data))
    ∧ (registry_lookup algorithm = none ↔
        algorithm ∉
          (["RS", "DS", "RS64", "RS128", "RS256", "DS128", "DS256"] :
            List String)) := by
  refine ⟨?_, ?_, ?_⟩
  · cases haln : pyIsAlnum algorithm with
    | false => simp [load_key, haln]
    | true =>
      cases hreg : registry_lookup algorithm with
      | none => simp [load_key, haln, hreg]
      | some c => simp [load_key, haln, hreg]
  · intro c hreg
    have haln : pyIsAlnum algorithm = true := by
      have hmem := registry_lookup_mem algorithm c hreg
      simp only [List.mem_cons, List.not_mem_nil, or_false] at hmem
      rcases hmem with h | h | h | h | h | h | h <;> subst h <;> decide
    simp [load_key, haln, hreg]
  · constructor
    · intro hreg hmem
      simp only [List.mem_cons, List.not_mem_nil, or_false] at hmem
      rcases hmem with h | h | h | h | h | h | h <;> subst h <;>
        exact Option.noConfusion hreg
    · intro hnmem
      cases hreg : registry_lookup algorithm with
      | none => rfl
      | some c => exact absurd (registry_lookup_mem algorithm c hreg) hnmem

/-- Witness for the amended C4: the registered identifier "RS64" loads the
RS64Key class without raising. -/
theorem C4_load_key_registry_witness :
    load_key "RS64" (JVal.obj []) = .ok (KeyClass.RS64, JVal.obj []) :=
  (C4_load_key_registry "RS64" (JVal.obj [])).2.1 KeyClass.RS64 rfl

/-- Counterexample to C3: with no caller-supplied audience expectation and an
assertion whose payload carries "exp" but no "aud", every check of the
pipeline passes and the success-path lookup `assertion.payload["aud"]` of the
result dict (local.py line 102), which sits outside the try/except block,
raises a raw KeyError that the caller observes unconverted. -/
theorem C3_counterexample :
    LocalVerifier.verify demoEnv demoBundleNoAud none (some 100) =
      .error PyErr.keyError := rfl

/-- C3 as amended: every KeyError raised inside the try block of
LocalVerifier.verify — audience check, certificate-count policy, token
parsing, email/issuer extraction, chain validation, assertion signature
check — is converted into ValueError "Malformed JWT" (local.py lines 97-98);
but the result-dict construction reads the assertion's "aud" outside the
guarded region, so the only raw KeyError verify can surface comes from that
final lookup after the whole pipeline succeeded. -/
theorem C3_keyerror_unified (env : Env) (bundle : Bundle)
    (audience : Option (List String)) (now? : Option Int) :
    (verifyPipeline env bundle audience
        (normalize_timestamp env.currentTime now?) = .error .keyError →
      LocalVerifier.verify env bundle audience now? =
        .error (.valueError "Malformed JWT"))
    ∧ (LocalVerifier.verify env bundle audience now? = .error .keyError →
      ∃ a email issuer exp,
        verifyPipeline env bundle audience
          (normalize_timestamp env.currentTime now?) =
          .ok (a, email, issuer, exp) ∧
        a.payload.item "aud" = .error .keyError) := by
  constructor
  · intro hp
    unfold LocalVerifier.verify
    rw [hp]
  · intro hv
    unfold LocalVerifier.verify at hv
    split at hv
    · exact absurd hv (by simp)
    · simp_all
    · rename_i assertion email root_issuer exp heq
      split at hv
      · rename_i e heq2
        injection hv with h
        subst h
        exact ⟨assertion, email, root_issuer, exp, heq, heq2⟩
      · simp at hv

/-- Witness for the amended C3: an assertion whose payload lacks "exp" makes
the pipeline raise KeyError inside the try block, and verify reports
ValueError "Malformed JWT". -/
theorem C3_keyerror_unified_witness :
    LocalVerifier.verify demoEnv demoBundleNoExp none (some 100) =
      .error (.valueError "Malformed JWT") :=
  (C3_keyerror_unified demoEnv demoBundleNoExp none (some 100)).1 rfl

/-- Normalization is the identity on a supplied timestamp. -/
theorem normalize_timestamp_some (ct t : Int) :
    normalize_timestamp ct (some t) = t := rfl

/-- C7: when the resolver's trust decision is false for the pair (domain
after the last "@" of the subject email, first certificate's iss),
LocalVerifier.verify fails with InvalidSignatureError "untrusted root issuer"
(local.py lines 85-89).  The hypotheses reach that check (audience passed,
exactly one certificate, assertion parsed and unexpired, certificate parsed,
email and issuer extracted) but constrain neither `env.getKey` nor
`env.keyVerify`, so the failure is reported uniformly in them: no root-key
lookup is performed and no signature — however valid — is verified. -/
theorem C7_untrusted_root_issuer (env : Env) (bundle : Bundle)
    (audience : Option (List String)) (now? : Option Int)
    (a c : JWT) (certStr : String) (e : Int) (emailStr : String) (issv : JVal)
    (hca : check_audience env audience bundle = .ok ())
    (hcerts : bundle.certs = [certStr])
    (hpa : jwt_parse env bundle.assertion = .ok a)
    (hexp : a.payload.item "exp" = .ok (.num e))
    (hee : ¬ e < normalize_timestamp env.currentTime now?)
    (hpc : jwt_parse env certStr = .ok c)
    (hem : extractEmail [c] = .ok (.str emailStr))
    (hiss : c.payload.item "iss" = .ok issv)
    (htr : env.isTrustedIssuer ((lastElem? (pySplit emailStr '@')).getD "")
      issv = false) :
    LocalVerifier.verify env bundle audience now? =
      .error (.invalidSignatureUntrustedRoot issv) := by
  unfold LocalVerifier.verify verifyPipeline
  simp [hca, hcerts, hpa, hexp, hee, hpc, hem, hiss, htr, parseAll, headIss,
    asStr, jvalTimestamp, normalize_timestamp_some]

/-- Witness for C7: the sample bundle is fully well-formed and every
signature would verify, but the resolver trusts no issuer, so verify reports
the untrusted root issuer idp.example. -/
theorem C7_untrusted_root_issuer_witness :
    LocalVerifier.verify demoEnvUntrusted demoBundle none (some 100) =
      .error (.invalidSignatureUntrustedRoot (.str "idp.example")) :=
  C7_untrusted_root_issuer demoEnvUntrusted demoBundle none (some 100)
    ⟨"RS64", .obj [("exp", .num 200), ("aud", .str "app.example")], [], "HA.PA"⟩
    demoCert "HC.PC.SC" 200 "alice@idp.example" (.str "idp.example")
    rfl rfl rfl rfl (by decide) rfl rfl rfl rfl

/-- Helper: whenever the chain loop succeeds, the certificate it returns is
the last certificate of the processed chain, for chains of any length. -/
theorem chainCerts_ok_last (env : Env) (now : Int) :
    ∀ (cs : List JWT) (k : JVal) (c r : JWT),
    chainCerts env now k c cs = .ok r → lastElem? (c :: cs) = some r := by
  intro cs
  induction cs with
  | nil =>
    intro k c r h
    unfold chainCerts at h
    iterate 8 (all_goals try split at h)
    all_goals simp_all [lastElem?]
  | cons c2 cs2 ih =>
    intro k c r h
    unfold chainCerts at h
    iterate 8 (all_goals try split at h)
    all_goals try (exfalso; simp_all)
    exact ih _ _ _ h

/-- C5: behaviour of LocalVerifier.verify_certificate_chain (local.py lines
129-152): an empty chain is rejected with ValueError; a nonempty chain
resolves the root key from the resolver for the first certificate's "iss"
and runs the loop from it; each step fails with ExpiredSignatureError
"expired certificate in chain" when the certificate's exp < now, fails with
InvalidSignatureError "bad signature in chain" when its signature does not
verify against the current key, and otherwise advances the current key to
the certificate's embedded public key; and on success the returned
certificate is the last of the chain, for chains of any length. -/
theorem C5_chain_validator (env : Env) (now? : Option Int) :
    (verify_certificate_chain env [] now? =
      .error (.valueError "chain must have at least one certificate"))
    ∧ (∀ certificates c,
        verify_certificate_chain env certificates now? = .ok c →
        lastElem? certificates = some c)
    ∧ (∀ c cs issv rk, c.payload.item "iss" = .ok issv →
        env.getKey issv = .ok rk →
        verify_certificate_chain env (c :: cs) now? =
          chainCerts env (normalize_timestamp env.currentTime now?) rk c cs)
    ∧ (∀ now k c cs e2, c.payload.item "exp" = .ok (.num e2) → e2 < now →
        chainCerts env now k c cs =
          .error (.expiredSignature (.str "expired certificate in chain")))
    ∧ (∀ now k c cs e2, c.payload.item "exp" = .ok (.num e2) → ¬ e2 < now →
        JWT.check_signature env.keyVerify c k = .ok false →
        chainCerts env now k c cs = .error .invalidSignatureBadChain)
    ∧ (∀ now k c e2 k2, c.payload.item "exp" = .ok (.num e2) → ¬ e2 < now →
        JWT.check_signature env.keyVerify c k = .ok true →
        _extract_public_key c = .ok k2 →
        (chainCerts env now k c [] = .ok c ∧
         ∀ c2 cs2, chainCerts env now k c (c2 :: cs2) =
           chainCerts env now k2 c2 cs2)) := by
  refine ⟨rfl, ?_, ?_, ?_, ?_, ?_⟩
  · intro certificates c h
    match certificates with
    | [] => exact absurd h (by simp [verify_certificate_chain])
    | c0 :: cs =>
      simp only [verify_certificate_chain] at h
      split at h
      · exact absurd h (by simp)
      · split at h
        · exact absurd h (by simp)
        · exact chainCerts_ok_last env _ cs _ c0 c h
  · intro c cs issv rk hiss hgk
    cases cs with
    | nil => simp [verify_certificate_chain, hiss, hgk]
    | cons c2 cs2 => simp [verify_certificate_chain, hiss, hgk]
  · intro now k c cs e2 hexp hlt
    cases cs with
    | nil =>
      simp [chainCerts, certStep, hexp, hlt, jvalTimestamp,
        normalize_timestamp_some]
    | cons c2 cs2 =>
      simp [chainCerts, certStep, hexp, hlt, jvalTimestamp,
        normalize_timestamp_some]
  · intro now k c cs e2 hexp hge hsig
    cases cs with
    | nil =>
      simp [chainCerts, certStep, hexp, hge, hsig, jvalTimestamp,
        normalize_timestamp_some]
    | cons c2 cs2 =>
      simp [chainCerts, certStep, hexp, hge, hsig, jvalTimestamp,
        normalize_timestamp_some]
  · intro now k c e2 k2 hexp hge hsig hpk
    constructor
    · simp [chainCerts, certStep, hexp, hge, hsig, hpk, jvalTimestamp,
        normalize_timestamp_some]
    · intro c2 cs2
      simp [chainCerts, certStep, hexp, hge, hsig, hpk, jvalTimestamp,
        normalize_timestamp_some]

/-- Witness for C5: the empty chain is rejected, and the sample
one-certificate chain verifies and returns its (only, hence last)
certificate. -/
theorem C5_chain_validator_witness :
    verify_certificate_chain demoEnv [] (some 100) =
      .error (.valueError "chain must have at least one certificate") ∧
    lastElem? [demoCert] = some demoCert :=
  ⟨(C5_chain_validator demoEnv (some 100)).1,
   (C5_chain_validator demoEnv (some 100)).2.1 [demoCert] demoCert rfl⟩

/-- An error propagated from a sub-computation that never produces a given
ExpiredSignatureError is itself distinct from that error. -/
theorem error_ne_of_src {β γ : Type} {src : Except PyErr β} {e : PyErr}
    {x : JVal} (heq : src = .error e)
    (hno : src ≠ .error (.expiredSignature x)) :
    (Except.error e : Except PyErr γ) ≠ .error (.expiredSignature x) := by
  intro h
  injection h with h2
  subst h2
  exact hno heq

/-- Dict subscripting never raises ExpiredSignatureError. -/
theorem item_no_expired (v : JVal) (k : String) (x : JVal) :
    v.item k ≠ .error (.expiredSignature x) := by
  cases v with
  | str s => simp [JVal.item]
  | num n => simp [JVal.item]
  | obj fields =>
    simp only [JVal.item]
    split <;> simp

/-- String coercion never raises ExpiredSignatureError. -/
theorem asStr_no_expired (v : JVal) (x : JVal) :
    asStr v ≠ .error (.expiredSignature x) := by
  cases v <;> simp [asStr]

/-- Timestamp coercion never raises ExpiredSignatureError. -/
theorem jvalTimestamp_no_expired (v : JVal) (x : JVal) :
    jvalTimestamp v ≠ .error (.expiredSignature x) := by
  cases v <;> simp [jvalTimestamp]

/-- Key-type resolution never raises ExpiredSignatureError. -/
theorem declared_key_type_no_expired (kd : JVal) (x : JVal) :
    declared_key_type kd ≠ .error (.expiredSignature x) := by
  unfold declared_key_type
  split
  · simp
  · simp
  · split
    · simp
    · simp
    · rename_i e heq
      exact error_ne_of_src heq (item_no_expired _ _ _)
  · rename_i e hne heq
    exact error_ne_of_src heq (item_no_expired _ _ _)

/-- load_key never raises ExpiredSignatureError. -/
theorem load_key_no_expired (a : String) (kd : JVal) (x : JVal) :
    load_key a kd ≠ .error (.expiredSignature x) := by
  unfold load_key
  split
  · simp
  · split <;> simp

/-- check_signature never raises ExpiredSignatureError. -/
theorem check_signature_no_expired (kv : KeyVerify) (t : JWT) (kd : JVal)
    (x : JVal) : JWT.check_signature kv t kd ≠ .error (.expiredSignature x) := by
  unfold JWT.check_signature
  split
  · rename_i e heq
    exact error_ne_of_src heq (declared_key_type_no_expired kd x)
  · split
    · simp
    · split
      · rename_i e heq
        exact error_ne_of_src heq (load_key_no_expired _ _ _)
      · simp

/-- jwt.parse raises ExpiredSignatureError only if a decoder does. -/
theorem jwt_parse_no_expired (env : Env)
    (h1 : ∀ s y, env.decode_json_bytes s ≠ .error (.expiredSignature y))
    (h2 : ∀ s y, env.decode_bytes s ≠ .error (.expiredSignature y))
    (s : String) (x : JVal) :
    jwt_parse env s ≠ .error (.expiredSignature x) := by
  unfold jwt_parse
  split
  · split
    · rename_i e heq
      exact error_ne_of_src heq (h1 _ _)
    · split
      · simp
      · rename_i e hne heq
        exact error_ne_of_src heq (item_no_expired _ _ _)
      · split
        · rename_i e heq
          exact error_ne_of_src heq (h1 _ _)
        · split
          · rename_i e heq
            exact error_ne_of_src heq (h2 _ _)
          · simp
      · simp
  · simp

/-- Certificate-list parsing raises ExpiredSignatureError only if a decoder
does. -/
theorem parseAll_no_expired (env : Env)
    (h1 : ∀ s y, env.decode_json_bytes s ≠ .error (.expiredSignature y))
    (h2 : ∀ s y, env.decode_bytes s ≠ .error (.expiredSignature y)) :
    ∀ (l : List String) (x : JVal),
      parseAll env l ≠ .error (.expiredSignature x) := by
  intro l
  induction l with
  | nil => intro x; simp [parseAll]
  | cons s rest ih =>
    intro x
    unfold parseAll
    split
    · rename_i e heq
      exact error_ne_of_src heq (jwt_parse_no_expired env h1 h2 s x)
    · split
      · rename_i e heq
        exact error_ne_of_src heq (ih x)
      · simp

/-- Email extraction never raises ExpiredSignatureError. -/
theorem extractEmail_no_expired (certs : List JWT) (x : JVal) :
    extractEmail certs ≠ .error (.expiredSignature x) := by
  unfold extractEmail
  split
  · simp
  · split
    · simp
    · split
      · rename_i e heq
        exact error_ne_of_src heq (item_no_expired _ _ _)
      · split
        · rename_i e heq
          exact error_ne_of_src heq (item_no_expired _ _ _)
        · simp
    · rename_i e hne heq
      exact error_ne_of_src heq (item_no_expired _ _ _)

/-- Issuer extraction never raises ExpiredSignatureError. -/
theorem headIss_no_expired (certs : List JWT) (x : JVal) :
    headIss certs ≠ .error (.expiredSignature x) := by
  cases certs with
  | nil => simp [headIss]
  | cons c cs => exact item_no_expired _ _ _

/-- Public-key extraction never raises ExpiredSignatureError. -/
theorem _extract_public_key_no_expired (cert : JWT) (x : JVal) :
    _extract_public_key cert ≠ .error (.expiredSignature x) := by
  unfold _extract_public_key
  split
  · simp
  · exact item_no_expired _ _ _
  · rename_i e hne heq
    exact error_ne_of_src heq (item_no_expired _ _ _)

/-- The assertion signature check never raises ExpiredSignatureError. -/
theorem check_token_signature_no_expired (env : Env) (data cert : JWT)
    (x : JVal) :
    check_token_signature env data cert ≠ .error (.expiredSignature x) := by
  unfold check_token_signature
  split
  · rename_i e heq
    exact error_ne_of_src heq (_extract_public_key_no_expired _ _)
  · exact check_signature_no_expired _ _ _ _

/-- The chain loop body only raises ExpiredSignatureError with the string
argument "expired certificate in chain", never with a numeric argument. -/
theorem certStep_no_num_expired (env : Env) (now : Int) (k : JVal) (c : JWT)
    (n : Int) : certStep env now k c ≠ .error (.expiredSignature (.num n)) := by
  unfold certStep
  split
  · rename_i e heq
    exact error_ne_of_src heq (item_no_expired _ _ _)
  · split
    · rename_i e heq
      exact error_ne_of_src heq (jvalTimestamp_no_expired _ _)
    · split
      · simp
      · split
        · rename_i e heq
          exact error_ne_of_src heq (check_signature_no_expired _ _ _ _)
        · simp
        · exact _extract_public_key_no_expired _ _

/-- The chain loop only raises ExpiredSignatureError with the string
argument, never with a numeric argument. -/
theorem chainCerts_no_num_expired (env : Env) (now : Int) :
    ∀ (cs : List JWT) (k : JVal) (c : JWT) (n : Int),
    chainCerts env now k c cs ≠ .error (.expiredSignature (.num n)) := by
  intro cs
  induction cs with
  | nil =>
    intro k c n
    simp only [chainCerts]
    split
    · rename_i e heq
      exact error_ne_of_src heq (certStep_no_num_expired env now k c n)
    · simp
  | cons c2 cs2 ih =>
    intro k c n
    simp only [chainCerts]
    split
    · rename_i e heq
      exact error_ne_of_src heq (certStep_no_num_expired env now k c n)
    · exact ih _ _ _

/-- Chain verification raises no numeric-argument ExpiredSignatureError
unless the resolver does. -/
theorem vcc_no_num_expired (env : Env)
    (h3 : ∀ v y, env.getKey v ≠ .error (.expiredSignature y))
    (certs : List JWT) (now? : Option Int) (n : Int) :
    verify_certificate_chain env certs now? ≠
      .error (.expiredSignature (.num n)) := by
  cases certs with
  | nil => simp [verify_certificate_chain]
  | cons c cs =>
    simp only [verify_certificate_chain]
    split
    · rename_i e heq
      exact error_ne_of_src heq (item_no_expired _ _ _)
    · split
      · rename_i e heq
        exact error_ne_of_src heq (h3 _ _)
      · exact chainCerts_no_num_expired env _ cs _ c n

/-- When the assertion's expiry guard passes (exp not below now), no later
stage of the pipeline can produce the assertion-expiry error: every
ExpiredSignatureError surfacing afterwards carries the fixed chain string,
never a numeric payload, provided the external decoders and the resolver do
not themselves raise ExpiredSignatureError. -/
theorem verifyPipeline_no_num_expired (env : Env) (bundle : Bundle)
    (audience : Option (List String)) (now : Int) (a : JWT) (e : Int)
    (h1 : ∀ s y, env.decode_json_bytes s ≠ .error (.expiredSignature y))
    (h2 : ∀ s y, env.decode_bytes s ≠ .error (.expiredSignature y))
    (h3 : ∀ v y, env.getKey v ≠ .error (.expiredSignature y))
    (hca : check_audience env audience bundle = .ok ())
    (hpa : jwt_parse env bundle.assertion = .ok a)
    (hexp : a.payload.item "exp" = .ok (.num e))
    (hge : ¬ e < now) (n : Int) :
    verifyPipeline env bundle audience now ≠
      .error (.expiredSignature (.num n)) := by
  unfold verifyPipeline
  simp only [hca, hpa, hexp, jvalTimestamp, normalize_timestamp_some]
  intro h
  rw [if_neg hge] at h
  by_cases hlen2 : bundle.certs.length > 1
  · rw [if_pos hlen2] at h
    simp at h
  · rw [if_neg hlen2] at h
    cases hpl : parseAll env bundle.certs with
    | error e2 =>
      simp only [hpl] at h
      injection h with h4
      subst h4
      exact parseAll_no_expired env h1 h2 _ _ hpl
    | ok certs =>
      simp only [hpl] at h
      cases hem2 : extractEmail certs with
      | error e2 =>
        simp only [hem2] at h
        injection h with h4
        subst h4
        exact extractEmail_no_expired _ _ hem2
      | ok emailv =>
        simp only [hem2] at h
        cases hhi : headIss certs with
        | error e2 =>
          simp only [hhi] at h
          injection h with h4
          subst h4
          exact headIss_no_expired _ _ hhi
        | ok rootIssuer =>
          simp only [hhi] at h
          cases has : asStr emailv with
          | error e2 =>
            simp only [has] at h
            injection h with h4
            subst h4
            exact asStr_no_expired _ _ has
          | ok email =>
            simp only [has] at h
            by_cases htr : env.isTrustedIssuer
                ((lastElem? (pySplit email '@')).getD "") rootIssuer = true
            · rw [if_pos htr] at h
              cases hch : verify_certificate_chain env certs (some now) with
              | error e2 =>
                simp only [hch] at h
                injection h with h4
                subst h4
                exact vcc_no_num_expired env h3 _ _ _ hch
              | ok cert =>
                simp only [hch] at h
                cases hcs : check_token_signature env a cert with
                | error e2 =>
                  simp only [hcs] at h
                  injection h with h4
                  subst h4
                  exact check_token_signature_no_expired env _ _ _ hcs
                | ok b =>
                  simp only [hcs] at h
                  cases b <;> simp at h
            · rw [if_neg htr] at h
              simp at h

/-- C6: strict-inequality expiry semantics.  For the assertion (local.py
lines 71-73): once the pipeline reaches the expiry check, verify fails with
ExpiredSignatureError carrying the raw exp payload exactly when exp < now —
uniformly in the signature oracle and the resolver, so before any signature
is checked — and when exp is not below now (in particular exp = now) that
error cannot arise at all, provided the external decoders and resolver never
themselves raise ExpiredSignatureError.  For every certificate of a chain
(local.py lines 146-148): the loop fails with ExpiredSignatureError "expired
certificate in chain" exactly when the certificate's exp < now, and
otherwise (in particular exp = now) the step proceeds to the signature
check. -/
theorem C6_expiry_strict (env : Env) (bundle : Bundle)
    (audience : Option (List String)) (now? : Option Int) (a : JWT) (e : Int)
    (hno : (∀ s y, env.decode_json_bytes s ≠ .error (.expiredSignature y)) ∧
           (∀ s y, env.decode_bytes s ≠ .error (.expiredSignature y)) ∧
           (∀ v y, env.getKey v ≠ .error (.expiredSignature y)))
    (hca : check_audience env audience bundle = .ok ())
    (hlen : ¬ bundle.certs.length > 1)
    (hpa : jwt_parse env bundle.assertion = .ok a)
    (hexp : a.payload.item "exp" = .ok (.num e)) :
    (e < normalize_timestamp env.currentTime now? →
      LocalVerifier.verify env bundle audience now? =
        .error (.expiredSignature (.num e)))
    ∧ (¬ e < normalize_timestamp env.currentTime now? →
      ∀ n : Int, LocalVerifier.verify env bundle audience now? ≠
        .error (.expiredSignature (.num n)))
    ∧ (∀ now2 k c cs ce, c.payload.item "exp" = .ok (JVal.num ce) →
        (ce < now2 →
          chainCerts env now2 k c cs =
            .error (.expiredSignature (.str "expired certificate in chain")))
        ∧ (¬ ce < now2 → certStep env now2 k c =
            match JWT.check_signature env.keyVerify c k with
            | .error e2 => .error e2
            | .ok false => .error .invalidSignatureBadChain
            | .ok true => _extract_public_key c)) := by
  refine ⟨?_, ?_, ?_⟩
  · intro hlt
    unfold LocalVerifier.verify verifyPipeline
    simp only [hca, hpa, hexp, jvalTimestamp, normalize_timestamp_some]
    rw [if_neg hlen, if_pos hlt]
  · intro hge n
    unfold LocalVerifier.verify
    intro h
    split at h
    · simp at h
    · rename_i e2 hne heq
      injection h with h4
      subst h4
      exact verifyPipeline_no_num_expired env bundle audience _ a e
        hno.1 hno.2.1 hno.2.2 hca hpa hexp hge n heq
    · rename_i a2 em2 ri2 ex2 heq
      cases ha2 : a2.payload.item "aud" with
      | error e2 =>
        simp only [ha2] at h
        injection h with h4
        subst h4
        exact item_no_expired _ _ _ ha2
      | ok audv =>
        simp only [ha2] at h
        simp at h
  · intro now2 k c cs ce hexp2
    constructor
    · intro hlt2
      cases cs with
      | nil =>
        simp [chainCerts, certStep, hexp2, hlt2, jvalTimestamp,
          normalize_timestamp_some]
      | cons c2 cs2 =>
        simp [chainCerts, certStep, hexp2, hlt2, jvalTimestamp,
          normalize_timestamp_some]
    · intro hge2
      unfold certStep
      simp only [hexp2, jvalTimestamp, normalize_timestamp_some]
      rw [if_neg hge2]

/-- The sample decoder never raises ExpiredSignatureError. -/
theorem demoJson_no_expired :
    ∀ s y, demoJson s ≠ .error (.expiredSignature y) := by
  intro s y
  unfold demoJson
  split_ifs <;> simp

/-- The sample byte decoder never raises at all. -/
theorem demoBytes_no_expired :
    ∀ (s : String) (y : JVal),
      demoEnv.decode_bytes s ≠ .error (.expiredSignature y) := by
  intro s y h
  simp [demoEnv] at h

/-- The sample resolver key lookup never raises ExpiredSignatureError. -/
theorem demoGetKey_no_expired :
    ∀ v y, demoGetKey v ≠ .error (.expiredSignature y) := by
  intro v y
  cases v with
  | str s =>
    simp only [demoGetKey]
    split_ifs <;> simp
  | num n => simp [demoGetKey]
  | obj l => simp [demoGetKey]

/-- Witness for C6: with the sample bundle (assertion exp 200), verification
at now = 300 fails with the assertion-expiry error, while at now = 200 — the
boundary case exp = now — that error cannot occur. -/
theorem C6_expiry_strict_witness :
    LocalVerifier.verify demoEnv demoBundle none (some 300) =
      .error (.expiredSignature (.num 200)) ∧
    LocalVerifier.verify demoEnv demoBundle none (some 200) ≠
      .error (.expiredSignature (.num 200)) := by
  constructor
  · exact (C6_expiry_strict demoEnv demoBundle none (some 300)
      ⟨"RS64", .obj [("exp", .num 200), ("aud", .str "app.example")], [],
        "HA.PA"⟩ 200
      ⟨demoJson_no_expired, demoBytes_no_expired, demoGetKey_no_expired⟩
      rfl (by decide) rfl rfl).1 (by decide)
  · exact (C6_expiry_strict demoEnv demoBundle none (some 200)
      ⟨"RS64", .obj [("exp", .num 200), ("aud", .str "app.example")], [],
        "HA.PA"⟩ 200
      ⟨demoJson_no_expired, demoBytes_no_expired, demoGetKey_no_expired⟩
      rfl (by decide) rfl rfl).2.1 (by decide) 200

/-- Parsing a certificate list preserves its length. -/
theorem parseAll_length (env : Env) :
    ∀ (l : List String) (js : List JWT), parseAll env l = .ok js →
      js.length = l.length := by
  intro l
  induction l with
  | nil =>
    intro js h
    simp [parseAll] at h
    subst h
    rfl
  | cons s rest ih =>
    intro js h
    unfold parseAll at h
    cases hp : jwt_parse env s with
    | error e =>
      simp only [hp] at h
      simp at h
    | ok j =>
      simp only [hp] at h
      cases hr : parseAll env rest with
      | error e =>
        simp only [hr] at h
        simp at h
      | ok js2 =>
        simp only [hr] at h
        injection h with h2
        subst h2
        simp [ih js2 hr]

/-- Inverting a successful one-element parse. -/
theorem parseAll_singleton (env : Env) (s : String) (j : JWT)
    (h : parseAll env [s] = .ok [j]) : jwt_parse env s = .ok j := by
  unfold parseAll at h
  cases hp : jwt_parse env s with
  | error e =>
    simp only [hp] at h
    simp at h
  | ok j2 =>
    simp only [hp, parseAll] at h
    simp at h
    exact congrArg Except.ok h

/-- Inverting a successful string coercion. -/
theorem asStr_ok_eq (v : JVal) (s : String) (h : asStr v = .ok s) :
    v = .str s := by
  cases v with
  | str s2 =>
    simp [asStr] at h
    subst h
    rfl
  | num n => simp [asStr] at h
  | obj l => simp [asStr] at h

/-- A list of length one is a singleton. -/
theorem list_eq_singleton_of_length {α : Type} (l : List α)
    (h : l.length = 1) : ∃ x, l = [x] := by
  cases l with
  | nil => simp at h
  | cons x xs =>
    cases xs with
    | nil => exact ⟨x, rfl⟩
    | cons y ys => simp at h

/-- C1: full characterization of success.  LocalVerifier.verify returns a
result if and only if the bundle carries exactly one certificate, the
audience check passes, the assertion parses with an unexpired numeric exp
and an aud claim, the certificate parses with subject email, issuer and an
unexpired exp, the resolver trusts the root issuer for the email's domain,
the certificate's signature verifies against the resolver-supplied root key,
and the assertion's signature verifies against the certificate's embedded
public key — and then the result is exactly status "okay" with the
assertion's aud, the last (only) certificate's subject email, the first
(only) certificate's iss, and the normalized assertion exp. -/
theorem C1_full_success (env : Env) (bundle : Bundle)
    (audience : Option (List String)) (now? : Option Int) (r : VerifyResult) :
    LocalVerifier.verify env bundle audience now? = .ok r ↔
    ∃ certStr a c e audv emailStr issv ce rk pk,
      check_audience env audience bundle = .ok () ∧
      bundle.certs = [certStr] ∧
      jwt_parse env bundle.assertion = .ok a ∧
      a.payload.item "exp" = .ok (JVal.num e) ∧
      ¬ e < normalize_timestamp env.currentTime now? ∧
      jwt_parse env certStr = .ok c ∧
      extractEmail [c] = .ok (JVal.str emailStr) ∧
      c.payload.item "iss" = .ok issv ∧
      env.isTrustedIssuer ((lastElem? (pySplit emailStr '@')).getD "") issv
        = true ∧
      c.payload.item "exp" = .ok (JVal.num ce) ∧
      ¬ ce < normalize_timestamp env.currentTime now? ∧
      env.getKey issv = .ok rk ∧
      JWT.check_signature env.keyVerify c rk = .ok true ∧
      _extract_public_key c = .ok pk ∧
      JWT.check_signature env.keyVerify a pk = .ok true ∧
      a.payload.item "aud" = .ok audv ∧
      r = ⟨"okay", audv, emailStr, issv, e⟩ := by
  constructor
  · intro hv
    unfold LocalVerifier.verify at hv
    split at hv
    · simp at hv
    · simp at hv
    · rename_i a2 em2 ri2 ex2 heq
      cases haud2 : a2.payload.item "aud" with
      | error e3 =>
        simp only [haud2] at hv
        simp at hv
      | ok audv =>
        simp only [haud2] at hv
        injection hv with hv2
        subst hv2
        unfold verifyPipeline at heq
        cases hca : check_audience env audience bundle with
        | error e3 =>
          simp only [hca] at heq
          simp at heq
        | ok u =>
          cases u
          simp only [hca] at heq
          by_cases hlen : bundle.certs.length > 1
          · rw [if_pos hlen] at heq
            simp at heq
          · rw [if_neg hlen] at heq
            cases hpa : jwt_parse env bundle.assertion with
            | error e3 =>
              simp only [hpa] at heq
              simp at heq
            | ok a =>
              simp only [hpa] at heq
              cases hexpv : a.payload.item "exp" with
              | error e3 =>
                simp only [hexpv] at heq
                simp at heq
              | ok expv =>
                simp only [hexpv] at heq
                cases expv with
                | str s2 => simp [jvalTimestamp] at heq
                | obj l2 => simp [jvalTimestamp] at heq
                | num e =>
                  simp only [jvalTimestamp, normalize_timestamp_some] at heq
                  by_cases hlt : e < normalize_timestamp env.currentTime now?
                  · rw [if_pos hlt] at heq
                    simp at heq
                  · rw [if_neg hlt] at heq
                    cases hpl : parseAll env bundle.certs with
                    | error e3 =>
                      simp only [hpl] at heq
                      simp at heq
                    | ok certs =>
                      simp only [hpl] at heq
                      cases hem0 : extractEmail certs with
                      | error e3 =>
                        simp only [hem0] at heq
                        simp at heq
                      | ok emailv =>
                        simp only [hem0] at heq
                        cases hhi : headIss certs with
                        | error e3 =>
                          simp only [hhi] at heq
                          simp at heq
                        | ok issv =>
                          simp only [hhi] at heq
                          cases has : asStr emailv with
                          | error e3 =>
                            simp only [has] at heq
                            simp at heq
                          | ok emailStr =>
                            simp only [has] at heq
                            have hemv := asStr_ok_eq emailv emailStr has
                            subst hemv
                            by_cases htr : env.isTrustedIssuer
                                ((lastElem? (pySplit emailStr '@')).getD "")
                                issv = true
                            · rw [if_pos htr] at heq
                              cases hch : verify_certificate_chain env certs
                                  (some (normalize_timestamp env.currentTime
                                    now?)) with
                              | error e3 =>
                                simp only [hch] at heq
                                simp at heq
                              | ok cert =>
                                simp only [hch] at heq
                                cases hcs : check_token_signature env a cert with
                                | error e3 =>
                                  simp only [hcs] at heq
                                  simp at heq
                                | ok b =>
                                  cases b with
                                  | false =>
                                    simp only [hcs] at heq
                                    simp at heq
                                  | true =>
                                    simp only [hcs] at heq
                                    simp only [Except.ok.injEq,
                                      Prod.mk.injEq] at heq
                                    obtain ⟨rfl, rfl, rfl, rfl⟩ := heq
                                    have hlen2 :=
                                      parseAll_length env bundle.certs certs hpl
                                    cases certs with
                                    | nil => simp [extractEmail, lastElem?] at hem0
                                    | cons c0 cs0 =>
                                      cases cs0 with
                                      | cons c1 cs1 =>
                                        exfalso
                                        simp [List.length_cons] at hlen2
                                        omega
                                      | nil =>
                                        have hb1 : bundle.certs.length = 1 := by
                                          rw [← hlen2]
                                          rfl
                                        obtain ⟨certStr, hcerts⟩ :=
                                          list_eq_singleton_of_length
                                            bundle.certs hb1
                                        have hpc : jwt_parse env certStr = .ok c0 :=
                                          parseAll_singleton env certStr c0
                                            (by rw [← hcerts]; exact hpl)
                                        have hiss0 : c0.payload.item "iss" =
                                            .ok issv := hhi
                                        simp only [verify_certificate_chain,
                                          hiss0, normalize_timestamp_some] at hch
                                        cases hgk : env.getKey issv with
                                        | error e3 =>
                                          simp only [hgk] at hch
                                          simp at hch
                                        | ok rk =>
                                          simp only [hgk, chainCerts] at hch
                                          cases hst : certStep env
                                              (normalize_timestamp
                                                env.currentTime now?) rk c0 with
                                          | error e3 =>
                                            simp only [hst] at hch
                                            simp at hch
                                          | ok k2 =>
                                            simp only [hst] at hch
                                            injection hch with hch2
                                            subst hch2
                                            unfold certStep at hst
                                            cases hce0 : c0.payload.item "exp" with
                                            | error e3 =>
                                              simp only [hce0] at hst
                                              simp at hst
                                            | ok cev =>
                                              simp only [hce0] at hst
                                              cases cev with
                                              | str s3 => simp [jvalTimestamp] at hst
                                              | obj l3 => simp [jvalTimestamp] at hst
                                              | num ce =>
                                                simp only [jvalTimestamp,
                                                  normalize_timestamp_some] at hst
                                                by_cases hcee : ce <
                                                    normalize_timestamp
                                                      env.currentTime now?
                                                · rw [if_pos hcee] at hst
                                                  simp at hst
                                                · rw [if_neg hcee] at hst
                                                  cases hsig0 :
                                                      JWT.check_signature
                                                        env.keyVerify c0 rk with
                                                  | error e3 =>
                                                    simp only [hsig0] at hst
                                                    simp at hst
                                                  | ok b2 =>
                                                    cases b2 with
                                                    | false =>
                                                      simp only [hsig0] at hst
                                                      simp at hst
                                                    | true =>
                                                      simp only [hsig0] at hst
                                                      unfold check_token_signature
                                                        at hcs
                                                      simp only [hst] at hcs
                                                      exact ⟨certStr, a, c0, e,
                                                        audv, emailStr, issv, ce,
                                                        rk, k2, rfl, hcerts, rfl,
                                                        hexpv, hlt, hpc, hem0,
                                                        hiss0, htr, hce0, hcee,
                                                        hgk, hsig0, hst, hcs,
                                                        haud2, rfl⟩
                            · rw [if_neg htr] at heq
                              simp at heq
  · rintro ⟨certStr, a, c, e, audv, emailStr, issv, ce, rk, pk, hca, hcerts,
      hpa, hexp, hee, hpc, hem, hiss, htr, hcexp, hcee, hgk, hcsig, hpk,
      hasig, haud2, hr⟩
    subst hr
    unfold LocalVerifier.verify verifyPipeline
    simp [hca, hcerts, hpa, hexp, hee, hpc, hem, hiss, htr, hcexp, hcee,
      hgk, hcsig, hpk, hasig, haud2, parseAll, headIss, asStr,
      verify_certificate_chain, chainCerts, certStep, check_token_signature,
      jvalTimestamp, normalize_timestamp_some]

/-- Witness for C1: the sample bundle verifies and yields exactly the
result dict drawn from the validated data. -/
theorem C1_full_success_witness :
    LocalVerifier.verify demoEnv demoBundle none (some 100) =
      .ok ⟨"okay", .str "app.example", "alice@idp.example",
        .str "idp.example", 200⟩ :=
  (C1_full_success demoEnv demoBundle none (some 100) _).mpr
    ⟨"HC.PC.SC",
     ⟨"RS64", .obj [("exp", .num 200), ("aud", .str "app.example")], [],
       "HA.PA"⟩,
     demoCert, 200, .str "app.example", "alice@idp.example",
     .str "idp.example", 300, .obj [("kty", .str "RSA")],
     .obj [("kty", .str "RSA")],
     rfl, rfl, rfl, rfl, by decide, rfl, rfl, rfl, rfl, rfl, by decide,
     rfl, rfl, rfl, rfl, rfl, rfl⟩

end PyBrowserID
